import Mathlib

/-!
Verification of the PMV thermal-comfort prediction service (`app.py`).

The service is shallowly embedded as follows:

* Python floats are modelled by `PFloat`: a rational number, positive or
  negative infinity, or NaN.  The comparison operators `PFloat.lt` and
  `PFloat.le` mirror IEEE semantics: every comparison involving NaN is false.
* JSON values appearing in a request payload are modelled by `JsonVal`
  (numbers, strings, booleans, null); a payload is an association list of
  key/value pairs, mirroring a JSON object.
* Python's `float(...)` builtin is modelled by `pyFloat`, which raises
  `ValueError` on an unparseable string and `TypeError` on values that are
  neither numbers, booleans, nor strings.  Numeric string parsing is
  modelled by `parseFloat?` (sign, digits, decimal point, exponent,
  `inf`/`infinity`/`nan`, surrounding whitespace).
* The opaque collaborators are parameters: the scaler's `transform` is a
  function `Vec4 → Except String Vec4` and the model's `predict` is a
  function `Vec4 → Except String PFloat`; an `Except.error` models an
  exception escaping the library call, which the route's outer handler
  converts into a 500 response.
* The module-level globals `latest_sensor_data` and `sensor_data_history`
  form the state `AppState`; the `/predict` route is the state-passing
  function `predict`, and the read-only routes are `home`,
  `get_sensor_data` and `get_sensor_data_history`.
-/

instance {ε α : Type _} [DecidableEq ε] [DecidableEq α] : DecidableEq (Except ε α) :=
  fun x y =>
    match x, y with
    | .ok a, .ok b =>
      if h : a = b then .isTrue (h ▸ rfl) else .isFalse (fun hh => h (Except.ok.inj hh))
    | .error a, .error b =>
      if h : a = b then .isTrue (h ▸ rfl) else .isFalse (fun hh => h (Except.error.inj hh))
    | .ok _, .error _ => .isFalse (fun hh => Except.noConfusion hh)
    | .error _, .ok _ => .isFalse (fun hh => Except.noConfusion hh)

/-- A Python/IEEE floating-point value, abstracting the finite values as
exact rationals: a finite number, `+inf`, `-inf`, or NaN. -/
inductive PFloat where
  | num (q : ℚ)
  | inf
  | ninf
  | nan
deriving DecidableEq, Repr

/-- Strict `<` on floats: any comparison involving NaN is false;
`-inf < q < inf` for every finite `q`. -/
def PFloat.lt : PFloat → PFloat → Bool
  | .num a, .num b => a < b
  | .num _, .inf => true
  | .ninf, .num _ => true
  | .ninf, .inf => true
  | _, _ => false

/-- Non-strict `<=` on floats: any comparison involving NaN is false. -/
def PFloat.le : PFloat → PFloat → Bool
  | .num a, .num b => a ≤ b
  | .num _, .inf => true
  | .ninf, .num _ => true
  | .ninf, .inf => true
  | .inf, .inf => true
  | .ninf, .ninf => true
  | _, _ => false

/-- `get_thermal_comfort_status` from `app.py` (lines 38-52): the
seven-branch classification of a PMV value, branches tried in order.
A chained Python comparison `a < pmv < b` is `a < pmv && pmv < b`. -/
def get_thermal_comfort_status (pmv : PFloat) : String :=
  if PFloat.lt (.num (-1)) pmv && PFloat.lt pmv (.num 1) then "Normal"
  else if PFloat.lt (.num (-2)) pmv && PFloat.le pmv (.num (-1)) then "A bit Cool"
  else if PFloat.lt (.num (-3)) pmv && PFloat.le pmv (.num (-2)) then "Cool"
  else if PFloat.le pmv (.num (-3)) then "Cold"
  else if PFloat.le (.num 1) pmv && PFloat.lt pmv (.num 2) then "A bit Warm"
  else if PFloat.le (.num 2) pmv && PFloat.lt pmv (.num 3) then "Warm"
  else "Hot"

/-- `np.clip(x, lo, hi)` with finite rational bounds: NaN propagates,
infinities clip to the corresponding bound, and a finite value is clamped
to `[lo, hi]`. -/
def np_clip (x : PFloat) (lo hi : ℚ) : PFloat :=
  match x with
  | .nan => .nan
  | .inf => .num hi
  | .ninf => .num lo
  | .num q => .num (min (max q lo) hi)

/-- A JSON value that can appear as a field of the request payload
(arrays and nested objects are omitted; like `null` they would make
`float(...)` raise `TypeError`). -/
inductive JsonVal where
  | jnum (q : ℚ)
  | jstr (s : String)
  | jbool (b : Bool)
  | jnull
deriving DecidableEq, Repr

/-- The Python exceptions that `float(...)` can raise. -/
inductive PyExc where
  | valueError (msg : String)
  | typeError (msg : String)
deriving DecidableEq, Repr

/-- Numeric value of a list of decimal digit characters. -/
def natOfDigits (cs : List Char) : ℕ :=
  cs.foldl (fun n c => n * 10 + (c.toNat - 48)) 0

/-- Parse an optional exponent suffix `e[+-]?digits` (already lowercased);
an empty remainder leaves the base value unchanged, anything else fails. -/
def parseExp? (base : ℚ) (cs : List Char) : Option ℚ :=
  match cs with
  | [] => some base
  | 'e' :: rest =>
    let (neg, rest2) : Bool × List Char :=
      match rest with
      | '+' :: r => (false, r)
      | '-' :: r => (true, r)
      | r => (false, r)
    let (ds, rest3) := rest2.span Char.isDigit
    if ds.isEmpty ∨ ¬ rest3.isEmpty then none
    else
      let e : ℤ := if neg then -(natOfDigits ds : ℤ) else (natOfDigits ds : ℤ)
      some (base * (10 : ℚ) ^ e)
  | _ => none

/-- Parse an unsigned decimal literal: `digits`, `digits.`, `digits.digits`
or `.digits`, each optionally followed by an exponent. -/
def parseUnsigned? (cs : List Char) : Option ℚ :=
  let (ip, rest) := cs.span Char.isDigit
  match rest with
  | [] => if ip.isEmpty then none else some (natOfDigits ip : ℚ)
  | '.' :: rest2 =>
    let (fp, rest3) := rest2.span Char.isDigit
    if ip.isEmpty ∧ fp.isEmpty then none
    else parseExp? ((natOfDigits ip : ℚ) + (natOfDigits fp : ℚ) / (10 : ℚ) ^ fp.length) rest3
  | 'e' :: _ => if ip.isEmpty then none else parseExp? (natOfDigits ip : ℚ) rest
  | _ => none

/-- Strip leading and trailing whitespace from a character list. -/
def stripWs (cs : List Char) : List Char :=
  ((cs.dropWhile Char.isWhitespace).reverse.dropWhile Char.isWhitespace).reverse

/-- ASCII lowercase of one character. -/
def lowerChar (c : Char) : Char :=
  if 65 ≤ c.toNat ∧ c.toNat ≤ 90 then Char.ofNat (c.toNat + 32) else c

/-- Python `float(string)`: strip whitespace, lowercase, optional sign,
then either `nan`, `inf`/`infinity`, or a decimal literal. -/
def parseFloat? (s : String) : Option PFloat :=
  let t := (stripWs s.toList).map lowerChar
  let (neg, body) : Bool × List Char :=
    match t with
    | '+' :: r => (false, r)
    | '-' :: r => (true, r)
    | r => (false, r)
  if body = "nan".toList then some .nan
  else if body = "inf".toList ∨ body = "infinity".toList then
    some (if neg then .ninf else .inf)
  else
    match parseUnsigned? body with
    | some q => some (.num (if neg then -q else q))
    | none => none

/-- Python's `float(v)` on a JSON value: numbers and booleans convert
(`float(True) = 1.0`), strings are parsed (ValueError if unparseable),
and any other type raises TypeError. -/
def pyFloat : JsonVal → Except PyExc PFloat
  | .jnum q => .ok (.num q)
  | .jbool b => .ok (.num (if b then 1 else 0))
  | .jstr s =>
    match parseFloat? s with
    | some x => .ok x
    | none =>
      .error (.valueError ("could not convert string to float: '" ++ s ++ "'"))
  | .jnull =>
    .error (.typeError "float() argument must be a string or a real number, not 'NoneType'")

/-- A request payload: a JSON object, i.e. an association list of fields. -/
abbrev Payload := List (String × JsonVal)

/-- `required_fields` from `app.py` line 65. -/
def required_fields : List String := ["temperature", "humidity", "air_flow", "mrt"]

/-- Dict key membership: `field in data`. -/
def hasKey (data : Payload) (k : String) : Bool :=
  data.any (fun p => p.1 == k)

/-- Dict lookup `data[k]` as an `Option` (first binding wins). -/
def lookupKey (data : Payload) (k : String) : Option JsonVal :=
  (data.find? (fun p => p.1 == k)).map (fun p => p.2)

/-- `missing_fields` from `app.py` line 67: the required fields absent
from the payload, in the order of `required_fields`. -/
def missing_fields (data : Payload) : List String :=
  required_fields.filter (fun f => ! hasKey data f)

/-- The four `float(data[...])` coercions of `app.py` lines 72-75,
performed in source order; the first exception wins.  The call site
guarantees all four keys are present, so the `jnull` default of a failed
lookup is never consulted there. -/
def coerce4 (data : Payload) : Except PyExc (PFloat × PFloat × PFloat × PFloat) := do
  let suhu ← pyFloat ((lookupKey data "temperature").getD .jnull)
  let humidity ← pyFloat ((lookupKey data "humidity").getD .jnull)
  let air_flow ← pyFloat ((lookupKey data "air_flow").getD .jnull)
  let mrt ← pyFloat ((lookupKey data "mrt").getD .jnull)
  return (suhu, humidity, air_flow, mrt)

/-- One entry of the sensor history: the dict built at `app.py`
lines 95-103 (timestamp, the four coerced inputs, clamped pmv, label). -/
structure Reading where
  time : String
  temperature : PFloat
  humidity : PFloat
  air_flow : PFloat
  mrt : PFloat
  pmv : PFloat
  thermal_comfort : String
deriving DecidableEq, Repr

/-- The process-wide mutable state: `latest_sensor_data` (the all-null
initial dict is modelled by `none`) and `sensor_data_history`. -/
structure AppState where
  latest_sensor_data : Option Reading
  sensor_data_history : List Reading
deriving DecidableEq, Repr

/-- The state at process startup (`app.py` lines 25-35). -/
def initState : AppState :=
  { latest_sensor_data := none, sensor_data_history := [] }

/-- The state update of a successful prediction (`app.py` lines 94-110):
overwrite `latest_sensor_data`, append to the history, then pop the oldest
entry if the length exceeds 100. -/
def pushReading (st : AppState) (r : Reading) : AppState :=
  let h := st.sensor_data_history ++ [r]
  { latest_sensor_data := some r
    sensor_data_history := if h.length > 100 then h.drop 1 else h }

/-- A 4-element feature vector. -/
abbrev Vec4 := PFloat × PFloat × PFloat × PFloat

/-- The opaque `scaler.transform` collaborator; `Except.error` models an
exception escaping the call. -/
abbrev ScalerFn := Vec4 → Except String Vec4

/-- The opaque `model.predict` collaborator (composed with the
`float(prediction[0][0])` scalar extraction); `Except.error` models an
exception escaping the call. -/
abbrev ModelFn := Vec4 → Except String PFloat

/-- An HTTP response of the `/predict` route: either the 200 body
`{"pmv": ..., "thermal_comfort": ...}` or an error body with its status. -/
inductive Response where
  | ok (pmv : PFloat) (thermal_comfort : String)
  | err (code : ℕ) (msg : String)
deriving DecidableEq, Repr

/-- The HTTP status code of a response. -/
def Response.code : Response → ℕ
  | .ok _ _ => 200
  | .err c _ => c

/-- Whether a response is the 200 success body. -/
def Response.isOk : Response → Bool
  | .ok _ _ => true
  | .err _ _ => false

/-- The body of the `/predict` route once both artifacts are loaded
(`app.py` lines 63-118): missing-field validation, the four `float`
coercions (only `ValueError` is caught by the inner handler; a
`TypeError` propagates to the outer handler and becomes a 500), the
scaler and model calls, clamping, classification, and the state update. -/
def predictBody (model : ModelFn) (scaler : ScalerFn) (now : String)
    (data : Payload) (st : AppState) : Response × AppState :=
  if missing_fields data ≠ [] then
    (.err 400 ("Parameter berikut harus diisi: " ++
      String.intercalate ", " (missing_fields data)), st)
  else
    match coerce4 data with
    | .error (.valueError _) => (.err 400 "Semua parameter harus berupa angka!", st)
    | .error (.typeError m) => (.err 500 m, st)
    | .ok (suhu, humidity, air_flow, mrt) =>
      match scaler (suhu, humidity, air_flow, mrt) with
      | .error m => (.err 500 m, st)
      | .ok scaled =>
        match model scaled with
        | .error m => (.err 500 m, st)
        | .ok raw =>
          let pmv := np_clip raw (-3) 3
          let tc := get_thermal_comfort_status pmv
          let reading : Reading :=
            { time := now, temperature := suhu, humidity := humidity,
              air_flow := air_flow, mrt := mrt, pmv := pmv, thermal_comfort := tc }
          (.ok pmv tc, pushReading st reading)

/-- The `/predict` route (`app.py` lines 58-118): reject with a 500 when
either artifact handle is the unavailable sentinel (`None`), otherwise
run the body. -/
def predict (model? : Option ModelFn) (scaler? : Option ScalerFn) (now : String)
    (data : Payload) (st : AppState) : Response × AppState :=
  match model?, scaler? with
  | some model, some scaler => predictBody model scaler now data st
  | _, _ => (.err 500 "Model atau scaler tidak dimuat dengan benar!", st)

/-- The `GET /` route (`app.py` lines 54-56). -/
def home (st : AppState) : String × AppState :=
  ("PMV Prediction API is running!", st)

/-- The `GET /get-sensor-data` route (`app.py` lines 121-123). -/
def get_sensor_data (st : AppState) : Option Reading × AppState :=
  (st.latest_sensor_data, st)

/-- The `GET /get-sensor-data-history` route (`app.py` lines 126-128). -/
def get_sensor_data_history (st : AppState) : List Reading × AppState :=
  (st.sensor_data_history, st)

/-- One request to the service, with the artifact handles and clock it
sees; a `predictReq` may succeed or fail. -/
inductive Op where
  | predictReq (model? : Option ModelFn) (scaler? : Option ScalerFn)
      (now : String) (data : Payload)
  | homeReq
  | getDataReq
  | getHistoryReq

/-- The state after handling one request. -/
def stepOp (st : AppState) : Op → AppState
  | .predictReq m s now data => (predict m s now data st).2
  | .homeReq => (home st).2
  | .getDataReq => (get_sensor_data st).2
  | .getHistoryReq => (get_sensor_data_history st).2

/-- The state after a sequence of requests starting from process startup. -/
def run (ops : List Op) : AppState :=
  ops.foldl stepOp initState

/-- A concrete scaler that succeeds and returns its input, for witnesses. -/
def idScaler : ScalerFn := fun v => .ok v

/-- A concrete model returning the constant raw scalar 7.0, for witnesses. -/
def constModel7 : ModelFn := fun _ => .ok (.num 7)

/-- A concrete model returning the constant raw scalar 0.0, for witnesses. -/
def constModel0 : ModelFn := fun _ => .ok (.num 0)

/-- A concrete model whose inference yields NaN, as a float computation
can: `float(prediction[0][0])` extracts NaN without error. -/
def constModelNan : ModelFn := fun _ => .ok .nan

/-- A well-formed payload with the four numeric fields, for witnesses. -/
def goodPayload : Payload :=
  [("temperature", .jnum 26), ("humidity", .jnum 55),
   ("air_flow", .jnum 2), ("mrt", .jnum 27)]

/-- A payload whose `temperature` is JSON `null`: `float(None)` raises
`TypeError`, which the inner `except ValueError` does not catch. -/
def nullPayload : Payload :=
  [("temperature", .jnull), ("humidity", .jnum 55),
   ("air_flow", .jnum 2), ("mrt", .jnum 27)]

/-- A payload whose `temperature` is the unparseable string `"abc"`. -/
def abcPayload : Payload :=
  [("temperature", .jstr "abc"), ("humidity", .jnum 55),
   ("air_flow", .jnum 2), ("mrt", .jnum 27)]

/-- The spec's example payload with only two of the four required fields. -/
def shortPayload : Payload :=
  [("temperature", .jnum 26), ("humidity", .jnum 55)]

/-- A concrete request sequence containing one successful prediction,
for witnesses. -/
def demoOps : List Op :=
  [.predictReq (some constModel0) (some idScaler) "2024-01-01 00:00:00" goodPayload,
   .getDataReq]

example : get_thermal_comfort_status (.num 0) = "Normal" := by decide
example : get_thermal_comfort_status (.num (-1)) = "A bit Cool" := by decide
example : get_thermal_comfort_status (.num 1) = "A bit Warm" := by decide
example : get_thermal_comfort_status (.num 3) = "Hot" := by decide
example : get_thermal_comfort_status .nan = "Hot" := by decide
example : pyFloat (.jstr "2.5e1") = .ok (.num 25) := by with_unfolding_all rfl
example : pyFloat (.jstr " -inf ") = .ok .ninf := by with_unfolding_all rfl
example : (pyFloat (.jstr "abc")).isOk = false := by decide
example :
    (predict (some constModel7) (some idScaler) "t" goodPayload initState).1 =
      .ok (.num 3) "Hot" := by decide

/-- Full characterisation of `predictBody`: it either returns an error and
the unchanged state, or a success built from a scaler output and a model
output, pushing the corresponding reading. -/
theorem predictBody_spec (m : ModelFn) (s : ScalerFn) (now : String)
    (data : Payload) (st : AppState) :
    (∃ c msg, predictBody m s now data st = (.err c msg, st)) ∨
    (∃ v scaled raw, s v = .ok scaled ∧ m scaled = .ok raw ∧
      predictBody m s now data st =
        (.ok (np_clip raw (-3) 3) (get_thermal_comfort_status (np_clip raw (-3) 3)),
         pushReading st
           { time := now, temperature := v.1, humidity := v.2.1,
             air_flow := v.2.2.1, mrt := v.2.2.2, pmv := np_clip raw (-3) 3,
             thermal_comfort := get_thermal_comfort_status (np_clip raw (-3) 3) })) := by
  unfold predictBody
  split
  · exact Or.inl ⟨_, _, rfl⟩
  split
  · exact Or.inl ⟨_, _, rfl⟩
  · exact Or.inl ⟨_, _, rfl⟩
  next suhu humidity air_flow mrt hco =>
    split
    · exact Or.inl ⟨_, _, rfl⟩
    next scaled hscaled =>
      split
      · exact Or.inl ⟨_, _, rfl⟩
      next raw hraw =>
        exact Or.inr ⟨(suhu, humidity, air_flow, mrt), scaled, raw, hscaled, hraw, rfl⟩

/-- Every `/predict` request either leaves the state unchanged or performs
exactly the successful-prediction update `pushReading`. -/
theorem predict_state_cases (m? : Option ModelFn) (s? : Option ScalerFn)
    (now : String) (data : Payload) (st : AppState) :
    (predict m? s? now data st).2 = st ∨
    ∃ r, predict m? s? now data st = (.ok r.pmv r.thermal_comfort, pushReading st r) := by
  cases m? with
  | none => exact Or.inl rfl
  | some m =>
    cases s? with
    | none => exact Or.inl rfl
    | some s =>
      have hpred : predict (some m) (some s) now data st =
          predictBody m s now data st := rfl
      rcases predictBody_spec m s now data st with ⟨c, msg, he⟩ | ⟨v, scaled, raw, hs, hm, he⟩
      · exact Or.inl (by rw [hpred, he])
      · refine Or.inr ⟨⟨now, v.1, v.2.1, v.2.2.1, v.2.2.2, np_clip raw (-3) 3,
          get_thermal_comfort_status (np_clip raw (-3) 3)⟩, ?_⟩
        rw [hpred, he]

/-- Claim C2 counterexample: a model whose raw scalar is NaN reaches the
clamping step, yet `np.clip` propagates the NaN, so the route answers 200
with pmv = NaN and stores NaN in the latest reading — and NaN does not lie
within [-3, 3] under float comparison (it is not even a finite number).
This refutes the claim that the pmv stored and returned is always within
[-3, 3] regardless of the raw model output. -/
theorem claim_C2_counterexample :
    (predict (some constModelNan) (some idScaler) "t" goodPayload initState).1 =
      .ok .nan "Hot"
    ∧ (predict (some constModelNan) (some idScaler) "t" goodPayload
        initState).2.latest_sensor_data =
      some ⟨"t", .num 26, .num 55, .num 2, .num 27, .nan, "Hot"⟩
    ∧ (PFloat.le (.num (-3)) .nan && PFloat.le .nan (.num 3)) = false := by
  refine ⟨by decide, by decide, by decide⟩

/-- Claim C2 (amended): whenever a request reaches the clamping step — the
model produced a raw scalar and the response is the 200 body — and the raw
scalar is not NaN (any finite value or ±infinity, however large), the pmv
value in the response and in the stored latest reading is a finite number
in [-3, 3].  A NaN raw scalar instead propagates through the clamp and is
returned and stored as NaN. -/
theorem claim_C2_amended (m : ModelFn) (s : ScalerFn) (now : String)
    (data : Payload) (st : AppState) (p : PFloat) (tc : String)
    (hnum : ∀ v r, m v = .ok r → r ≠ .nan)
    (h : (predict (some m) (some s) now data st).1 = .ok p tc) :
    ∃ q : ℚ, p = .num q ∧ -3 ≤ q ∧ q ≤ 3 ∧
      ∃ r, (predict (some m) (some s) now data st).2.latest_sensor_data = some r ∧
        r.pmv = p := by
  have hpred : predict (some m) (some s) now data st =
      predictBody m s now data st := rfl
  rw [hpred] at h ⊢
  rcases predictBody_spec m s now data st with ⟨c, msg, he⟩ | ⟨v, scaled, raw, hs, hm, he⟩
  · rw [he] at h
    exact absurd h (by simp)
  · rw [he] at h ⊢
    have h' : Response.ok (np_clip raw (-3) 3)
        (get_thermal_comfort_status (np_clip raw (-3) 3)) = .ok p tc := h
    have hp : p = np_clip raw (-3) 3 := (Response.ok.inj h').1.symm
    cases raw with
    | num q0 =>
      refine ⟨min (max q0 (-3)) 3, ?_, ?_, ?_, ⟨_, rfl, ?_⟩⟩
      · rw [hp]; rfl
      · exact le_min (le_trans (by norm_num) (le_max_right q0 (-3))) (by norm_num)
      · exact min_le_right _ _
      · exact hp.symm
    | inf =>
      exact ⟨3, by rw [hp]; rfl, by norm_num, by norm_num, ⟨_, rfl, hp.symm⟩⟩
    | ninf =>
      exact ⟨-3, by rw [hp]; rfl, by norm_num, by norm_num, ⟨_, rfl, hp.symm⟩⟩
    | nan =>
      exact absurd rfl (hnum scaled .nan hm)

/-- Claim C2 amended witness: a model returning the raw scalar 7.0
(outside the interval) on the example payload yields a stored and returned
pmv of 3. -/
theorem claim_C2_amended_witness :
    ∃ q : ℚ, PFloat.num 3 = .num q ∧ -3 ≤ q ∧ q ≤ 3 ∧
      ∃ r, (predict (some constModel7) (some idScaler) "t" goodPayload
          initState).2.latest_sensor_data = some r ∧ r.pmv = .num 3 :=
  claim_C2_amended constModel7 idScaler "t" goodPayload initState (.num 3) "Hot"
    (fun _ r h => by
      injection h with h2
      subst h2
      exact fun hh => PFloat.noConfusion hh)
    (by decide)

/-- The bounded-append update never grows the history beyond 100. -/
theorem pushReading_length_le (st : AppState) (r : Reading)
    (h : st.sensor_data_history.length ≤ 100) :
    (pushReading st r).sensor_data_history.length ≤ 100 := by
  unfold pushReading
  dsimp only
  split
  · next hc =>
    simp only [List.length_drop, List.length_append, List.length_cons,
      List.length_nil] at hc ⊢
    omega
  · next hc =>
    simp only [List.length_append, List.length_cons, List.length_nil] at hc ⊢
    omega

/-- Handling any single request preserves the 100-entry history bound. -/
theorem stepOp_length_le (st : AppState) (op : Op)
    (h : st.sensor_data_history.length ≤ 100) :
    (stepOp st op).sensor_data_history.length ≤ 100 := by
  cases op with
  | predictReq m s now data =>
    rcases predict_state_cases m s now data st with he | ⟨r, he⟩
    · show (predict m s now data st).2.sensor_data_history.length ≤ 100
      rw [he]; exact h
    · show (predict m s now data st).2.sensor_data_history.length ≤ 100
      rw [he]; exact pushReading_length_le st r h
  | homeReq => exact h
  | getDataReq => exact h
  | getHistoryReq => exact h

/-- Claim C3: after any sequence of requests (successful or failing
predictions and GETs) starting from process startup, the history holds at
most 100 entries. -/
theorem claim_C3 (ops : List Op) : (run ops).sensor_data_history.length ≤ 100 := by
  suffices h : ∀ st, st.sensor_data_history.length ≤ 100 →
      (ops.foldl stepOp st).sensor_data_history.length ≤ 100 from
    h initState (by decide)
  induction ops with
  | nil => exact fun st h => h
  | cons op rest ih => exact fun st h => ih _ (stepOp_length_le st op h)

/-- The latest reading always equals the last history entry (as an
`Option`), after any request sequence. -/
theorem run_latest_eq (ops : List Op) :
    (run ops).latest_sensor_data = (run ops).sensor_data_history.getLast? := by
  suffices h : ∀ st, st.latest_sensor_data = st.sensor_data_history.getLast? →
      (ops.foldl stepOp st).latest_sensor_data =
        (ops.foldl stepOp st).sensor_data_history.getLast? from
    h initState rfl
  induction ops with
  | nil => exact fun st h => h
  | cons op rest ih =>
    refine fun st h => ih _ ?_
    cases op with
    | predictReq m s now data =>
      rcases predict_state_cases m s now data st with he | ⟨r, he⟩
      · show (predict m s now data st).2.latest_sensor_data =
          (predict m s now data st).2.sensor_data_history.getLast?
        rw [he]; exact h
      · show (predict m s now data st).2.latest_sensor_data =
          (predict m s now data st).2.sensor_data_history.getLast?
        rw [he]
        unfold pushReading
        dsimp only
        split
        · next hc =>
          rcases hl : st.sensor_data_history with _ | ⟨a, l⟩
          · simp [hl] at hc
          · simp [List.getLast?_concat]
        · rw [List.getLast?_concat]
    | homeReq => exact h
    | getDataReq => exact h
    | getHistoryReq => exact h

/-- Claim C4: after every request sequence, whenever the history is
non-empty the latest reading equals its last (most recently appended)
element. -/
theorem claim_C4 (ops : List Op) (h : (run ops).sensor_data_history ≠ []) :
    (run ops).latest_sensor_data =
      some ((run ops).sensor_data_history.getLast h) := by
  rw [run_latest_eq ops, List.getLast?_eq_getLast _ h]

/-- Claim C4 witness: after one successful prediction and a GET, the latest
reading is the single history entry. -/
theorem claim_C4_witness :
    (run demoOps).sensor_data_history ≠ [] ∧
    (run demoOps).latest_sensor_data =
      some ((run demoOps).sensor_data_history.getLast (by decide)) :=
  ⟨by decide, claim_C4 demoOps (by decide)⟩

/-- After pushing any sequence of readings into the empty initial state,
the history is exactly the suffix of the 100 most recent readings
(everything, when there are at most 100). -/
theorem foldl_pushReading_history (rs : List Reading) :
    (rs.foldl pushReading initState).sensor_data_history =
      rs.drop (rs.length - 100) := by
  induction rs using List.reverseRecOn with
  | nil => rfl
  | append_singleton rs r ih =>
    rw [List.foldl_append, List.foldl_cons, List.foldl_nil]
    simp only [pushReading]
    rw [ih]
    by_cases hge : 100 ≤ rs.length
    · have h1 : (1:ℕ) ≤ (rs.drop (rs.length - 100)).length := by
        rw [List.length_drop]; omega
      have hcond : (rs.drop (rs.length - 100) ++ [r]).length > 100 := by
        rw [List.length_append, List.length_drop, List.length_singleton]; omega
      rw [if_pos hcond, List.drop_append_of_le_length h1, List.drop_drop]
      have h2 : (rs ++ [r]).length - 100 ≤ rs.length := by
        rw [List.length_append, List.length_singleton]; omega
      rw [List.drop_append_of_le_length h2]
      have h3 : rs.length - 100 + 1 = (rs ++ [r]).length - 100 := by
        rw [List.length_append, List.length_singleton]; omega
      rw [h3]
    · have h0 : rs.length - 100 = 0 := by omega
      have hcond : ¬ (rs.drop (rs.length - 100) ++ [r]).length > 100 := by
        rw [h0, List.drop_zero, List.length_append, List.length_singleton]; omega
      rw [if_neg hcond, h0, List.drop_zero]
      have h1 : (rs ++ [r]).length - 100 = 0 := by
        rw [List.length_append, List.length_singleton]; omega
      rw [h1, List.drop_zero]

/-- After pushing any sequence of readings into the empty initial state,
the latest reading is the last pushed one. -/
theorem foldl_pushReading_latest (rs : List Reading) :
    (rs.foldl pushReading initState).latest_sensor_data = rs.getLast? := by
  induction rs using List.reverseRecOn with
  | nil => rfl
  | append_singleton rs r ih =>
    rw [List.foldl_append, List.foldl_cons, List.foldl_nil, List.getLast?_concat]
    rfl

/-- Claim C5: after N successful predictions from the empty history, the
history is the suffix of the 100 most recent results in insertion
(chronological) order — all N of them when N ≤ 100, and exactly 100 with
FIFO eviction of the oldest when N > 100 — and the latest reading is the
last result. -/
theorem claim_C5 (rs : List Reading) :
    (rs.foldl pushReading initState).sensor_data_history =
      rs.drop (rs.length - 100)
    ∧ (rs.foldl pushReading initState).sensor_data_history.length =
      min rs.length 100
    ∧ (rs.foldl pushReading initState).latest_sensor_data = rs.getLast? := by
  refine ⟨foldl_pushReading_history rs, ?_, foldl_pushReading_latest rs⟩
  rw [foldl_pushReading_history rs, List.length_drop]
  omega

/-- Claim C1: the comfort classifier is a pure total function that returns
exactly the label of the seven-branch table evaluated in order: "Normal" on
(-1, 1), "A bit Cool" on (-2, -1], "Cool" on (-3, -2], "Cold" on (-∞, -3],
"A bit Warm" on [1, 2), "Warm" on [2, 3), and "Hot" otherwise (for finite
inputs, on [3, ∞)); in particular classify(-1) = "A bit Cool" and
classify(1) = "A bit Warm". -/
theorem claim_C1 (q : ℚ) :
    ((-1 < q ∧ q < 1) → get_thermal_comfort_status (.num q) = "Normal")
    ∧ ((-2 < q ∧ q ≤ -1) → get_thermal_comfort_status (.num q) = "A bit Cool")
    ∧ ((-3 < q ∧ q ≤ -2) → get_thermal_comfort_status (.num q) = "Cool")
    ∧ (q ≤ -3 → get_thermal_comfort_status (.num q) = "Cold")
    ∧ ((1 ≤ q ∧ q < 2) → get_thermal_comfort_status (.num q) = "A bit Warm")
    ∧ ((2 ≤ q ∧ q < 3) → get_thermal_comfort_status (.num q) = "Warm")
    ∧ (3 ≤ q → get_thermal_comfort_status (.num q) = "Hot")
    ∧ get_thermal_comfort_status (.num (-1)) = "A bit Cool"
    ∧ get_thermal_comfort_status (.num 1) = "A bit Warm" := by
  refine ⟨?_, ?_, ?_, ?_, ?_, ?_, ?_, by decide, by decide⟩ <;>
  · intro h
    simp only [get_thermal_comfort_status, PFloat.lt, PFloat.le, Bool.and_eq_true,
      decide_eq_true_eq]
    split_ifs <;> simp_all <;> linarith

/-- Claim C1 witness: at the concrete input 0 the first branch applies and
the classifier returns "Normal". -/
theorem claim_C1_witness :
    (-1 < (0:ℚ) ∧ (0:ℚ) < 1) ∧ get_thermal_comfort_status (.num 0) = "Normal" :=
  ⟨by norm_num, (claim_C1 0).1 (by norm_num)⟩

/-- Claim C10: the classifier's final branch is a catch-all: every input on
which all six explicit guards are false — in particular NaN, which fails
every float comparison — is classified "Hot", and the function is total
(being a Lean function it never raises). -/
theorem claim_C10 :
    (∀ x : PFloat,
      (PFloat.lt (.num (-1)) x && PFloat.lt x (.num 1)) = false →
      (PFloat.lt (.num (-2)) x && PFloat.le x (.num (-1))) = false →
      (PFloat.lt (.num (-3)) x && PFloat.le x (.num (-2))) = false →
      PFloat.le x (.num (-3)) = false →
      (PFloat.le (.num 1) x && PFloat.lt x (.num 2)) = false →
      (PFloat.le (.num 2) x && PFloat.lt x (.num 3)) = false →
      get_thermal_comfort_status x = "Hot")
    ∧ get_thermal_comfort_status .nan = "Hot" := by
  refine ⟨fun x h1 h2 h3 h4 h5 h6 => ?_, by decide⟩
  simp only [get_thermal_comfort_status, h1, h2, h3, h4, h5, h6]
  simp

/-- Claim C10 witness: NaN falsifies all six guards and is classified
"Hot". -/
theorem claim_C10_witness : get_thermal_comfort_status .nan = "Hot" :=
  claim_C10.1 .nan (by decide) (by decide) (by decide) (by decide) (by decide)
    (by decide)

/-- Claim C6: when the payload (with artifacts loaded) omits at least one
required key, the route returns the 400 missing-fields error whose message
lists exactly the absent required keys, without touching the state and
without attempting any coercion or inference (the response does not depend
on the model, the scaler, or the present values). -/
theorem claim_C6 (m : ModelFn) (s : ScalerFn) (now : String) (data : Payload)
    (st : AppState) (h : ∃ f ∈ required_fields, hasKey data f = false) :
    predict (some m) (some s) now data st =
      (.err 400 ("Parameter berikut harus diisi: " ++
        String.intercalate ", " (missing_fields data)), st)
    ∧ ∀ f, f ∈ missing_fields data ↔ (f ∈ required_fields ∧ hasKey data f = false) := by
  have hmem : ∀ f, f ∈ missing_fields data ↔
      (f ∈ required_fields ∧ hasKey data f = false) := by
    intro f
    simp [missing_fields, List.mem_filter]
  have hne : missing_fields data ≠ [] := by
    obtain ⟨f, hf, hk⟩ := h
    intro hnil
    have hmm : f ∈ missing_fields data := (hmem f).2 ⟨hf, hk⟩
    rw [hnil] at hmm
    exact absurd hmm (List.not_mem_nil f)
  refine ⟨?_, hmem⟩
  have hpred : predict (some m) (some s) now data st =
      predictBody m s now data st := rfl
  rw [hpred]
  unfold predictBody
  rw [if_pos hne]

/-- Claim C6 witness: the spec's example payload, missing `air_flow` and
`mrt`, yields the 400 error naming exactly those two fields. -/
theorem claim_C6_witness :
    predict (some constModel0) (some idScaler) "t" shortPayload initState =
      (.err 400 "Parameter berikut harus diisi: air_flow, mrt", initState) := by
  have h := (claim_C6 constModel0 idScaler "t" shortPayload initState
    ⟨"air_flow", by decide, by decide⟩).1
  rw [h]
  decide

/-- Claim C7 counterexample: the payload `nullPayload` has all four keys
but its `temperature` is JSON null, which cannot be coerced to float; the
claim demands a 400 with the generic message, but `float(None)` raises
`TypeError`, which the inner `except ValueError` does not catch, so the
outer handler returns a 500. -/
theorem claim_C7_counterexample :
    (predict (some constModel0) (some idScaler) "t" nullPayload initState).1 =
      .err 500 "float() argument must be a string or a real number, not 'NoneType'"
    ∧ (predict (some constModel0) (some idScaler) "t" nullPayload initState).1 ≠
      .err 400 "Semua parameter harus berupa angka!" := by
  constructor <;> decide

/-- Claim C7 (amended): for every payload containing all four required
keys where some value fails to coerce and the first failing coercion (in
the order temperature, humidity, air_flow, mrt) raises `ValueError` — i.e.
is a string that cannot be parsed as a number — the route returns 400 with
the single generic message "Semua parameter harus berupa angka!" and
leaves the state unchanged.  (When the first failing value is of a
non-string, non-numeric type such as null, `float` raises `TypeError`
instead, which escapes to the outer handler and yields a 500.) -/
theorem claim_C7_amended (m : ModelFn) (s : ScalerFn) (now : String)
    (data : Payload) (st : AppState)
    (hpres : missing_fields data = [])
    (hval : ∃ msg, coerce4 data = .error (.valueError msg)) :
    predict (some m) (some s) now data st =
      (.err 400 "Semua parameter harus berupa angka!", st) := by
  obtain ⟨msg, hc⟩ := hval
  have hpred : predict (some m) (some s) now data st =
      predictBody m s now data st := rfl
  rw [hpred]
  unfold predictBody
  rw [if_neg (fun hne => hne hpres), hc]

/-- Claim C7 amended witness: the spec's own example, `temperature` set to
the string "abc", yields the 400 generic coercion error. -/
theorem claim_C7_amended_witness :
    missing_fields abcPayload = []
    ∧ coerce4 abcPayload =
        .error (.valueError "could not convert string to float: 'abc'")
    ∧ predict (some constModel0) (some idScaler) "t" abcPayload initState =
        (.err 400 "Semua parameter harus berupa angka!", initState) :=
  ⟨by decide, by decide,
   claim_C7_amended constModel0 idScaler "t" abcPayload initState (by decide)
     ⟨"could not convert string to float: 'abc'", by decide⟩⟩

/-- Claim C8: with either artifact handle unavailable, every `/predict`
request — whatever its payload — is rejected with the 500 unavailability
error before any validation or state mutation, while the home,
get-sensor-data and get-sensor-data-history endpoints respond normally
(all four handlers are total functions, so the process never aborts). -/
theorem claim_C8 (m? : Option ModelFn) (s? : Option ScalerFn) (now : String)
    (data : Payload) (st : AppState) (h : m? = none ∨ s? = none) :
    predict m? s? now data st =
      (.err 500 "Model atau scaler tidak dimuat dengan benar!", st)
    ∧ home st = ("PMV Prediction API is running!", st)
    ∧ get_sensor_data st = (st.latest_sensor_data, st)
    ∧ get_sensor_data_history st = (st.sensor_data_history, st) := by
  refine ⟨?_, rfl, rfl, rfl⟩
  rcases h with rfl | rfl
  · cases s? <;> rfl
  · cases m? <;> rfl

/-- Claim C8 witness: with both handles unavailable, the example payload is
rejected with the 500 error and the read-only endpoints still answer. -/
theorem claim_C8_witness :
    predict none none "t" goodPayload initState =
      (.err 500 "Model atau scaler tidak dimuat dengan benar!", initState)
    ∧ home initState = ("PMV Prediction API is running!", initState)
    ∧ get_sensor_data initState = (initState.latest_sensor_data, initState)
    ∧ get_sensor_data_history initState =
        (initState.sensor_data_history, initState) :=
  claim_C8 none none "t" goodPayload initState (Or.inl rfl)

/-- Claim C9: every failing `/predict` request (service unavailable,
missing fields, coercion failure, or any inference-time exception) leaves
`latest_sensor_data` and `sensor_data_history` unchanged, and the GET
endpoints never mutate the state. -/
theorem claim_C9 (m? : Option ModelFn) (s? : Option ScalerFn) (now : String)
    (data : Payload) (st : AppState)
    (h : (predict m? s? now data st).1.isOk = false) :
    (predict m? s? now data st).2 = st
    ∧ (home st).2 = st
    ∧ (get_sensor_data st).2 = st
    ∧ (get_sensor_data_history st).2 = st := by
  refine ⟨?_, rfl, rfl, rfl⟩
  rcases predict_state_cases m? s? now data st with he | ⟨r, he⟩
  · exact he
  · rw [he] at h
    exact absurd h (by simp [Response.isOk])

/-- Claim C9 witness: a missing-fields request fails and leaves the state
unchanged. -/
theorem claim_C9_witness :
    (predict (some constModel0) (some idScaler) "t" shortPayload
        initState).1.isOk = false
    ∧ ((predict (some constModel0) (some idScaler) "t" shortPayload
          initState).2 = initState
       ∧ (home initState).2 = initState
       ∧ (get_sensor_data initState).2 = initState
       ∧ (get_sensor_data_history initState).2 = initState) :=
  ⟨by decide,
   claim_C9 (some constModel0) (some idScaler) "t" shortPayload initState
     (by decide)⟩
